import Mathlib

/-!
Verification of `mujoco_py/mjviewer.py` (studywolf fork): a shallow
embedding of the viewer's event-handling state machine and theorems about
the claims of the specification.

Python floats are embedded as `ℚ`, python ints as `ℤ`, numpy 3-vectors as
`Vec3`.  Stateful methods become functions `ViewerState → … → ViewerState`
(together with an event trace where lock usage matters).
-/

namespace MjViewer

/-! ### GLFW and mujoco constants (numeric values of the named constants
used by mjviewer.py). -/

namespace glfw

def RELEASE : ℤ := 0
def PRESS : ℤ := 1
def REPEAT : ℤ := 2

def KEY_1 : ℤ := 49
def KEY_2 : ℤ := 50
def KEY_3 : ℤ := 51
def KEY_4 : ℤ := 52
def KEY_5 : ℤ := 53
def KEY_H : ℤ := 72
def KEY_U : ℤ := 85
def KEY_Y : ℤ := 89
def KEY_SPACE : ℤ := 32
def KEY_ESCAPE : ℤ := 256
def KEY_ENTER : ℤ := 257
def KEY_TAB : ℤ := 258
def KEY_RIGHT : ℤ := 262
def KEY_LEFT : ℤ := 263
def KEY_DOWN : ℤ := 264
def KEY_UP : ℤ := 265
def KEY_F1 : ℤ := 290
def KEY_F2 : ℤ := 291
def KEY_F3 : ℤ := 292
def KEY_F4 : ℤ := 293
def KEY_F5 : ℤ := 294
def KEY_LEFT_SHIFT : ℤ := 340
def KEY_LEFT_ALT : ℤ := 342

end glfw

namespace const

/-- mjtMouse camera-action constants from `mujoco_py.generated.const`. -/
def MOUSE_ROTATE_V : ℤ := 1
def MOUSE_ROTATE_H : ℤ := 2
def MOUSE_MOVE_V : ℤ := 3
def MOUSE_MOVE_H : ℤ := 4
def MOUSE_ZOOM : ℤ := 5

/-- mjtGridPos overlay-position constants. -/
def GRID_TOPLEFT : ℤ := 0
def GRID_TOPRIGHT : ℤ := 1
def GRID_BOTTOMLEFT : ℤ := 2
def GRID_BOTTOMRIGHT : ℤ := 3

end const

/-! ### Vectors -/

/-- A numpy 3-vector of python floats, embedded with rational components. -/
structure Vec3 where
  x : ℚ
  y : ℚ
  z : ℚ
deriving DecidableEq, Repr

instance : Add Vec3 := ⟨fun a b => ⟨a.x + b.x, a.y + b.y, a.z + b.z⟩⟩

instance : SMul ℚ Vec3 := ⟨fun c a => ⟨c * a.x, c * a.y, c * a.z⟩⟩

instance : Zero Vec3 := ⟨⟨0, 0, 0⟩⟩

theorem Vec3.add_def (a b : Vec3) :
    a + b = ⟨a.x + b.x, a.y + b.y, a.z + b.z⟩ := rfl

theorem Vec3.smul_def (c : ℚ) (a : Vec3) :
    c • a = ⟨c * a.x, c * a.y, c * a.z⟩ := rfl

theorem Vec3.zero_def : (0 : Vec3) = ⟨0, 0, 0⟩ := rfl

/-- Squared euclidean norm.  `np.linalg.norm(v) < r` (resp. `>`) for the
nonnegative radii used by this module (0.4 and 1.0) is embedded as
`normSq v < r * r` (resp. `>`), which is equivalent since both sides of the
original comparison are nonnegative. -/
def Vec3.normSq (v : Vec3) : ℚ := v.x * v.x + v.y * v.y + v.z * v.z

/-- Componentwise `np.clip(v, lo, hi)` = `minimum(hi, maximum(v, lo))`. -/
def Vec3.clip (v lo hi : Vec3) : Vec3 :=
  ⟨min (max v.x lo.x) hi.x, min (max v.y lo.y) hi.y, min (max v.z lo.z) hi.z⟩

/-- Componentwise order on 3-vectors. -/
def Vec3.le (a b : Vec3) : Prop := a.x ≤ b.x ∧ a.y ≤ b.y ∧ a.z ≤ b.z

theorem Vec3.le_clip {lo hi : Vec3} (t : Vec3) (h : Vec3.le lo hi) :
    Vec3.le lo (Vec3.clip t lo hi) ∧ Vec3.le (Vec3.clip t lo hi) hi := by
  obtain ⟨hx, hy, hz⟩ := h
  exact ⟨⟨le_min (le_max_right _ _) hx, le_min (le_max_right _ _) hy,
          le_min (le_max_right _ _) hz⟩,
         ⟨min_le_right _ _, min_le_right _ _, min_le_right _ _⟩⟩

/-- Python `int(q)`: truncation toward zero. -/
def pyInt (q : ℚ) : ℤ := if 0 ≤ q then ⌊q⌋ else ⌈q⌉

/-! ### Viewer state

All attributes of `MjViewerBasic.__init__` / `MjViewer.__init__` that the
event-handling code reads or writes.  Names follow the python attributes. -/

structure ViewerState where
  -- MjViewerBasic attributes
  button_left_pressed : Bool
  button_right_pressed : Bool
  last_mouse_x : ℤ
  last_mouse_y : ℤ
  win_scale : ℚ                 -- `self._scale` (framebuffer/window ratio)
  exit : Bool
  restart : Bool
  -- MjViewer attributes
  paused : Option Bool          -- `self._paused` (code checks `is not None`)
  advance_by_one_step : Bool
  record_video : Bool
  run_speed : ℚ
  loop_count : ℚ
  render_every_frame : Bool
  time_per_render : ℚ
  hide_overlay : Bool
  target : Vec3
  old_target : Vec3
  scale : ℚ                     -- `self.scale`, step size for the target
  xyz_lowerbound : Vec3
  xyz_upperbound : Vec3
  rlim_lo : Option ℚ            -- `self.rlim[0]`
  rlim_hi : Option ℚ            -- `self.rlim[1]`
  reach_mode : String
  reach_mode_changed : Bool
  toggle_demo : Bool
  key_pressed : Bool
  custom_print : String
  adapt : Bool
  display_all_text : Bool
  dumbbell_mass_index : ℤ
  planet : String
  planet_id : ℤ
  gravity : Vec3
  restart_sim : Bool
  move_elbow : Bool
  target_moved : Bool
  elbow_force_xyz : Vec3        -- `self.elbow_force[:3]`
  elbow_force_rot : Vec3        -- `self.elbow_force[3:]`
  display_hotkeys : Bool
  use_controller : Bool
  joystick_scale : ℚ
  target_z_toggle : Bool
deriving DecidableEq, Repr

/-- The `self.gravities` table from `MjViewer.__init__`. -/
def gravities : String → Option Vec3
  | "earth" => some ⟨0, 0, (-981)/100⟩
  | "moon" => some ⟨0, 0, (-162)/100⟩
  | "mars" => some ⟨0, 0, (-371)/100⟩
  | "jupiter" => some ⟨0, 0, (-2492)/100⟩
  | "ISS" => some ⟨0, 0, 0⟩
  | _ => none

/-- `self.planet_names`: planet id → name. -/
def planet_names : ℤ → Option String
  | 0 => some "mars"
  | 1 => some "earth"
  | 2 => some "moon"
  | 3 => some "jupiter"
  | 4 => some "ISS"
  | _ => none

/-- `self.planet_ids`: planet name → id. -/
def planet_ids : String → Option ℤ
  | "mars" => some 0
  | "earth" => some 1
  | "moon" => some 2
  | "jupiter" => some 3
  | "ISS" => some 4
  | _ => none

/-- The `self.keys` hotkey table (name → glfw key). -/
def keys : String → Option ℤ
  | "mars" => some glfw.KEY_1
  | "earth" => some glfw.KEY_2
  | "moon" => some glfw.KEY_3
  | "jupiter" => some glfw.KEY_4
  | "ISS" => some glfw.KEY_5
  | "left" => some glfw.KEY_LEFT
  | "right" => some glfw.KEY_RIGHT
  | "forward" => some glfw.KEY_UP
  | "backward" => some glfw.KEY_DOWN
  | "z_toggle" => some glfw.KEY_LEFT_ALT
  | "hot_keys" => some glfw.KEY_SPACE
  | "exit" => some glfw.KEY_ESCAPE
  | "hide_overlay" => some glfw.KEY_H
  | "restart" => some glfw.KEY_F5
  | "demo_toggle" => some glfw.KEY_ENTER
  | "reach_target" => some glfw.KEY_F1
  | "pick_up" => some glfw.KEY_F2
  | "drop_off" => some glfw.KEY_F3
  | "path_vis" => some glfw.KEY_F4
  | "adapt" => some glfw.KEY_LEFT_SHIFT
  | "move_elbow" => some glfw.KEY_TAB
  | "mass_up" => some glfw.KEY_U
  | "mass_down" => some glfw.KEY_Y
  | _ => none

/-- `self.xyz_lowerbound = [-0.5, -0.5, 0.001]` from `__init__`. -/
def lb0 : Vec3 := ⟨(-5)/10, (-5)/10, 1/1000⟩

/-- `self.xyz_upperbound = [0.5, 0.5, 0.7]` from `__init__`. -/
def ub0 : Vec3 := ⟨5/10, 5/10, 7/10⟩

/-- The state built by `MjViewerBasic.__init__` followed by
`MjViewer.__init__(sim, display_all_text)`.  `win_scale` comes from the
window's framebuffer/window ratio; it is passed in as a parameter. -/
def initViewer (display_all_text : Bool) (win_scale : ℚ) : ViewerState where
  button_left_pressed := false
  button_right_pressed := false
  last_mouse_x := 0
  last_mouse_y := 0
  win_scale := win_scale
  exit := false
  restart := false
  paused := some false
  advance_by_one_step := false
  record_video := false
  run_speed := 1
  loop_count := 0
  render_every_frame := false
  time_per_render := 1/60
  hide_overlay := false
  target := 0
  old_target := 0
  scale := 5/100
  xyz_lowerbound := lb0
  xyz_upperbound := ub0
  rlim_lo := some (4/10)
  rlim_hi := some 1
  reach_mode := "reach_target"
  reach_mode_changed := false
  toggle_demo := false
  key_pressed := false
  custom_print := ""
  adapt := false
  display_all_text := display_all_text
  dumbbell_mass_index := 0
  planet := "earth"
  planet_id := 1
  gravity := ⟨0, 0, (-981)/100⟩
  restart_sim := false
  move_elbow := false
  target_moved := false
  elbow_force_xyz := 0
  elbow_force_rot := 0
  display_hotkeys := false
  use_controller := false
  joystick_scale := 1
  target_z_toggle := false

/-! ### `MjViewer.key_callback`

The callback is split along the source's structure: `pressStep` is the
`action != glfw.RELEASE` branch (lines 436-468), `releaseStep` the
`action == glfw.RELEASE` branch (lines 471-579), `basic_key_callback` is
`MjViewerBasic.key_callback` (lines 62-65, invoked via `super()` in both
branches), and `arrowBlock` the trailing `if arrow_keys:` block (lines
581-600).  Each step returns the updated state together with the
`(dx, dy, dz)` displacement and the `arrow_keys` flag.  `altHeld` embeds
`glfw.get_key(window, self.keys['z_toggle'])` (truthiness of the key
state). -/

/-- Press/repeat branch of `key_callback`.  In the source the X block
(`left`/`right`) and the Y block (`forward`/`backward`) are two separate
`if`/`elif` statements; as `key` is a single value at most one of the four
fires, so they are embedded as one `if` chain. -/
def pressStep (s : ViewerState) (altHeld : Bool) (key : ℤ) :
    ViewerState × Vec3 × Bool :=
  if altHeld ∨ s.target_z_toggle then
    if key = glfw.KEY_UP then
      ({s with key_pressed := true}, ⟨0, 0, 1 * s.joystick_scale⟩, true)
    else if key = glfw.KEY_DOWN then
      ({s with key_pressed := true}, ⟨0, 0, (-1) * s.joystick_scale⟩, true)
    else (s, 0, false)
  else
    if key = glfw.KEY_LEFT then
      ({s with key_pressed := true}, ⟨(-1) * s.joystick_scale, 0, 0⟩, true)
    else if key = glfw.KEY_RIGHT then
      ({s with key_pressed := true}, ⟨1 * s.joystick_scale, 0, 0⟩, true)
    else if key = glfw.KEY_UP then
      ({s with key_pressed := true}, ⟨0, 1 * s.joystick_scale, 0⟩, true)
    else if key = glfw.KEY_DOWN then
      ({s with key_pressed := true}, ⟨0, (-1) * s.joystick_scale, 0⟩, true)
    else (s, 0, false)

/-- Release branch of `key_callback`: the `elif` chain of lines 473-575,
in source order.  The guards `glfw.get_key(window, z_toggle) and
key == forward/backward` are embedded with the two (pure) conjuncts in the
opposite order, which does not change the value. -/
def releaseStep (s : ViewerState) (altHeld : Bool) (key : ℤ) :
    ViewerState × Vec3 × Bool :=
  if key = glfw.KEY_H then
    ({s with hide_overlay := !s.hide_overlay}, 0, false)
  else if key = glfw.KEY_SPACE then
    ({s with display_hotkeys := !s.display_hotkeys}, 0, false)
  else if key = glfw.KEY_UP ∧ altHeld = true then
    ({s with key_pressed := true}, ⟨0, 0, 1 * s.joystick_scale⟩, true)
  else if key = glfw.KEY_DOWN ∧ altHeld = true then
    ({s with key_pressed := true}, ⟨0, 0, (-1) * s.joystick_scale⟩, true)
  else if key = glfw.KEY_LEFT then
    ({s with key_pressed := true}, ⟨(-1) * s.joystick_scale, 0, 0⟩, true)
  else if key = glfw.KEY_RIGHT then
    ({s with key_pressed := true}, ⟨1 * s.joystick_scale, 0, 0⟩, true)
  else if key = glfw.KEY_UP then
    ({s with key_pressed := true}, ⟨0, 1 * s.joystick_scale, 0⟩, true)
  else if key = glfw.KEY_DOWN then
    ({s with key_pressed := true}, ⟨0, (-1) * s.joystick_scale, 0⟩, true)
  else if key = glfw.KEY_F1 then
    ({s with reach_mode := "reach_target", reach_mode_changed := true,
             key_pressed := true}, 0, false)
  else if key = glfw.KEY_F2 then
    ({s with reach_mode := "pick_up", reach_mode_changed := true,
             key_pressed := true}, 0, false)
  else if key = glfw.KEY_F3 then
    ({s with reach_mode := "drop_off", reach_mode_changed := true,
             key_pressed := true}, 0, false)
  else if key = glfw.KEY_LEFT_SHIFT then
    ({s with adapt := !s.adapt, key_pressed := true}, 0, false)
  else if key = glfw.KEY_U then
    ({s with dumbbell_mass_index := s.dumbbell_mass_index + 1}, 0, false)
  else if key = glfw.KEY_Y then
    ({s with dumbbell_mass_index := s.dumbbell_mass_index - 1}, 0, false)
  else if key = glfw.KEY_1 then
    ({s with planet := "mars"}, 0, false)
  else if key = glfw.KEY_2 then
    ({s with planet := "earth"}, 0, false)
  else if key = glfw.KEY_3 then
    ({s with planet := "moon"}, 0, false)
  else if key = glfw.KEY_4 then
    ({s with planet := "jupiter"}, 0, false)
  else if key = glfw.KEY_5 then
    ({s with planet := "ISS"}, 0, false)
  else if key = glfw.KEY_F5 then
    ({s with restart_sim := true}, 0, false)
  else if key = glfw.KEY_ENTER then
    ({s with toggle_demo := true, key_pressed := true}, 0, false)
  else if key = glfw.KEY_TAB then
    ({s with move_elbow := !s.move_elbow}, 0, false)
  else (s, 0, false)

/-- `MjViewerBasic.key_callback`: ESC release sets `self.exit`. -/
def basic_key_callback (s : ViewerState) (key action : ℤ) : ViewerState :=
  if action = glfw.RELEASE ∧ key = glfw.KEY_ESCAPE then
    {s with exit := true}
  else s

/-- Lines 586-595: add the scaled step to the target, then revert to the
old target when a radius limit is violated (the second check recomputes
the norm on the possibly reverted vector). -/
def targetPreClip (t0 : Vec3) (sc : ℚ) (rlo rhi : Option ℚ) (d : Vec3) :
    Vec3 :=
  let t1 := t0 + sc • d
  let t2 := match rlo with
    | some r => if t1.normSq < r * r then t0 else t1
    | none => t1
  match rhi with
    | some r => if t2.normSq > r * r then t0 else t2
    | none => t2

/-- The pure target computation of lines 585-598: add the scaled step,
revert when the radius limits are violated, then clip to the box. -/
def targetUpdate (t0 : Vec3) (sc : ℚ) (rlo rhi : Option ℚ) (lo hi d : Vec3) :
    Vec3 :=
  Vec3.clip (targetPreClip t0 sc rlo rhi d) lo hi

/-- Lines 585-600: the target update of the `if arrow_keys:` block when
`move_elbow` is false (`old_target` records the pre-update target). -/
def targetStep (s : ViewerState) (d : Vec3) : ViewerState :=
  {s with old_target := s.target,
          target := targetUpdate s.target s.scale s.rlim_lo s.rlim_hi
                      s.xyz_lowerbound s.xyz_upperbound d,
          target_moved := true}

/-- Lines 581-600: the `if arrow_keys:` block. -/
def arrowBlock (s : ViewerState) (d : Vec3) (arrow_keys : Bool) :
    ViewerState :=
  if arrow_keys then
    if s.move_elbow then
      {s with elbow_force_xyz := s.elbow_force_xyz + (10 : ℚ) • d}
    else targetStep s d
  else s

/-- The branch part of `key_callback` (before the `arrow_keys` block). -/
def stepParts (s : ViewerState) (altHeld : Bool) (key action : ℤ) :
    ViewerState × Vec3 × Bool :=
  if action ≠ glfw.RELEASE then pressStep s altHeld key
  else releaseStep s altHeld key

/-- `MjViewer.key_callback` (lines 431-600). -/
def key_callback (s : ViewerState) (altHeld : Bool) (key action : ℤ) :
    ViewerState :=
  arrowBlock
    (basic_key_callback (stepParts s altHeld key action).1 key action)
    (stepParts s altHeld key action).2.1
    (stepParts s altHeld key action).2.2

/-- The `arrow_keys` flag an event produces. -/
def arrow_of (s : ViewerState) (altHeld : Bool) (key action : ℤ) : Bool :=
  (stepParts s altHeld key action).2.2

/-- The `(dx, dy, dz)` displacement an event produces. -/
def delta_of (s : ViewerState) (altHeld : Bool) (key action : ℤ) : Vec3 :=
  (stepParts s altHeld key action).2.1

/-! ### Field-preservation lemmas for the key callback -/

/-! ### Field-preservation lemmas for the key callback -/

set_option maxHeartbeats 1000000 in
/-- Fields of the state that the release branch never writes, plus:
on an arrow event the release branch leaves `move_elbow` unchanged. -/
theorem releaseStep_fields (s : ViewerState) (altHeld : Bool) (key : ℤ) :
    ((releaseStep s altHeld key).1).gravity = s.gravity ∧
    ((releaseStep s altHeld key).1).run_speed = s.run_speed ∧
    ((releaseStep s altHeld key).1).record_video = s.record_video ∧
    ((releaseStep s altHeld key).1).target = s.target ∧
    ((releaseStep s altHeld key).1).old_target = s.old_target ∧
    ((releaseStep s altHeld key).1).target_moved = s.target_moved ∧
    ((releaseStep s altHeld key).1).xyz_lowerbound = s.xyz_lowerbound ∧
    ((releaseStep s altHeld key).1).xyz_upperbound = s.xyz_upperbound ∧
    ((releaseStep s altHeld key).1).rlim_lo = s.rlim_lo ∧
    ((releaseStep s altHeld key).1).rlim_hi = s.rlim_hi ∧
    ((releaseStep s altHeld key).1).scale = s.scale ∧
    ((releaseStep s altHeld key).1).joystick_scale = s.joystick_scale ∧
    ((releaseStep s altHeld key).1).elbow_force_xyz = s.elbow_force_xyz ∧
    ((releaseStep s altHeld key).1).elbow_force_rot = s.elbow_force_rot ∧
    ((releaseStep s altHeld key).2.2 = true →
      ((releaseStep s altHeld key).1).move_elbow = s.move_elbow) := by
  delta releaseStep
  by_cases h1 : key = glfw.KEY_H
  · rw [if_pos h1]; exact ⟨rfl, rfl, rfl, rfl, rfl, rfl, rfl, rfl, rfl, rfl, rfl, rfl, rfl, rfl, fun _ => rfl⟩
  rw [if_neg h1]
  by_cases h2 : key = glfw.KEY_SPACE
  · rw [if_pos h2]; exact ⟨rfl, rfl, rfl, rfl, rfl, rfl, rfl, rfl, rfl, rfl, rfl, rfl, rfl, rfl, fun _ => rfl⟩
  rw [if_neg h2]
  by_cases h3 : key = glfw.KEY_UP ∧ altHeld = true
  · rw [if_pos h3]; exact ⟨rfl, rfl, rfl, rfl, rfl, rfl, rfl, rfl, rfl, rfl, rfl, rfl, rfl, rfl, fun _ => rfl⟩
  rw [if_neg h3]
  by_cases h4 : key = glfw.KEY_DOWN ∧ altHeld = true
  · rw [if_pos h4]; exact ⟨rfl, rfl, rfl, rfl, rfl, rfl, rfl, rfl, rfl, rfl, rfl, rfl, rfl, rfl, fun _ => rfl⟩
  rw [if_neg h4]
  by_cases h5 : key = glfw.KEY_LEFT
  · rw [if_pos h5]; exact ⟨rfl, rfl, rfl, rfl, rfl, rfl, rfl, rfl, rfl, rfl, rfl, rfl, rfl, rfl, fun _ => rfl⟩
  rw [if_neg h5]
  by_cases h6 : key = glfw.KEY_RIGHT
  · rw [if_pos h6]; exact ⟨rfl, rfl, rfl, rfl, rfl, rfl, rfl, rfl, rfl, rfl, rfl, rfl, rfl, rfl, fun _ => rfl⟩
  rw [if_neg h6]
  by_cases h7 : key = glfw.KEY_UP
  · rw [if_pos h7]; exact ⟨rfl, rfl, rfl, rfl, rfl, rfl, rfl, rfl, rfl, rfl, rfl, rfl, rfl, rfl, fun _ => rfl⟩
  rw [if_neg h7]
  by_cases h8 : key = glfw.KEY_DOWN
  · rw [if_pos h8]; exact ⟨rfl, rfl, rfl, rfl, rfl, rfl, rfl, rfl, rfl, rfl, rfl, rfl, rfl, rfl, fun _ => rfl⟩
  rw [if_neg h8]
  by_cases h9 : key = glfw.KEY_F1
  · rw [if_pos h9]; exact ⟨rfl, rfl, rfl, rfl, rfl, rfl, rfl, rfl, rfl, rfl, rfl, rfl, rfl, rfl, fun _ => rfl⟩
  rw [if_neg h9]
  by_cases h10 : key = glfw.KEY_F2
  · rw [if_pos h10]; exact ⟨rfl, rfl, rfl, rfl, rfl, rfl, rfl, rfl, rfl, rfl, rfl, rfl, rfl, rfl, fun _ => rfl⟩
  rw [if_neg h10]
  by_cases h11 : key = glfw.KEY_F3
  · rw [if_pos h11]; exact ⟨rfl, rfl, rfl, rfl, rfl, rfl, rfl, rfl, rfl, rfl, rfl, rfl, rfl, rfl, fun _ => rfl⟩
  rw [if_neg h11]
  by_cases h12 : key = glfw.KEY_LEFT_SHIFT
  · rw [if_pos h12]; exact ⟨rfl, rfl, rfl, rfl, rfl, rfl, rfl, rfl, rfl, rfl, rfl, rfl, rfl, rfl, fun _ => rfl⟩
  rw [if_neg h12]
  by_cases h13 : key = glfw.KEY_U
  · rw [if_pos h13]; exact ⟨rfl, rfl, rfl, rfl, rfl, rfl, rfl, rfl, rfl, rfl, rfl, rfl, rfl, rfl, fun _ => rfl⟩
  rw [if_neg h13]
  by_cases h14 : key = glfw.KEY_Y
  · rw [if_pos h14]; exact ⟨rfl, rfl, rfl, rfl, rfl, rfl, rfl, rfl, rfl, rfl, rfl, rfl, rfl, rfl, fun _ => rfl⟩
  rw [if_neg h14]
  by_cases h15 : key = glfw.KEY_1
  · rw [if_pos h15]; exact ⟨rfl, rfl, rfl, rfl, rfl, rfl, rfl, rfl, rfl, rfl, rfl, rfl, rfl, rfl, fun _ => rfl⟩
  rw [if_neg h15]
  by_cases h16 : key = glfw.KEY_2
  · rw [if_pos h16]; exact ⟨rfl, rfl, rfl, rfl, rfl, rfl, rfl, rfl, rfl, rfl, rfl, rfl, rfl, rfl, fun _ => rfl⟩
  rw [if_neg h16]
  by_cases h17 : key = glfw.KEY_3
  · rw [if_pos h17]; exact ⟨rfl, rfl, rfl, rfl, rfl, rfl, rfl, rfl, rfl, rfl, rfl, rfl, rfl, rfl, fun _ => rfl⟩
  rw [if_neg h17]
  by_cases h18 : key = glfw.KEY_4
  · rw [if_pos h18]; exact ⟨rfl, rfl, rfl, rfl, rfl, rfl, rfl, rfl, rfl, rfl, rfl, rfl, rfl, rfl, fun _ => rfl⟩
  rw [if_neg h18]
  by_cases h19 : key = glfw.KEY_5
  · rw [if_pos h19]; exact ⟨rfl, rfl, rfl, rfl, rfl, rfl, rfl, rfl, rfl, rfl, rfl, rfl, rfl, rfl, fun _ => rfl⟩
  rw [if_neg h19]
  by_cases h20 : key = glfw.KEY_F5
  · rw [if_pos h20]; exact ⟨rfl, rfl, rfl, rfl, rfl, rfl, rfl, rfl, rfl, rfl, rfl, rfl, rfl, rfl, fun _ => rfl⟩
  rw [if_neg h20]
  by_cases h21 : key = glfw.KEY_ENTER
  · rw [if_pos h21]; exact ⟨rfl, rfl, rfl, rfl, rfl, rfl, rfl, rfl, rfl, rfl, rfl, rfl, rfl, rfl, fun _ => rfl⟩
  rw [if_neg h21]
  by_cases h22 : key = glfw.KEY_TAB
  · rw [if_pos h22]; exact ⟨rfl, rfl, rfl, rfl, rfl, rfl, rfl, rfl, rfl, rfl, rfl, rfl, rfl, rfl, fun h => Bool.noConfusion h⟩
  rw [if_neg h22]
  exact ⟨rfl, rfl, rfl, rfl, rfl, rfl, rfl, rfl, rfl, rfl, rfl, rfl, rfl, rfl, fun _ => rfl⟩

set_option maxHeartbeats 1000000 in
/-- Fields of the state that the press/repeat branch never writes. -/
theorem pressStep_fields (s : ViewerState) (altHeld : Bool) (key : ℤ) :
    ((pressStep s altHeld key).1).gravity = s.gravity ∧
    ((pressStep s altHeld key).1).run_speed = s.run_speed ∧
    ((pressStep s altHeld key).1).record_video = s.record_video ∧
    ((pressStep s altHeld key).1).target = s.target ∧
    ((pressStep s altHeld key).1).old_target = s.old_target ∧
    ((pressStep s altHeld key).1).target_moved = s.target_moved ∧
    ((pressStep s altHeld key).1).xyz_lowerbound = s.xyz_lowerbound ∧
    ((pressStep s altHeld key).1).xyz_upperbound = s.xyz_upperbound ∧
    ((pressStep s altHeld key).1).rlim_lo = s.rlim_lo ∧
    ((pressStep s altHeld key).1).rlim_hi = s.rlim_hi ∧
    ((pressStep s altHeld key).1).scale = s.scale ∧
    ((pressStep s altHeld key).1).joystick_scale = s.joystick_scale ∧
    ((pressStep s altHeld key).1).elbow_force_xyz = s.elbow_force_xyz ∧
    ((pressStep s altHeld key).1).elbow_force_rot = s.elbow_force_rot ∧
    ((pressStep s altHeld key).2.2 = true →
      ((pressStep s altHeld key).1).move_elbow = s.move_elbow) := by
  delta pressStep
  by_cases q1 : altHeld = true ∨ s.target_z_toggle = true
  · rw [if_pos q1]
    by_cases q2 : key = glfw.KEY_UP
    · rw [if_pos q2]; exact ⟨rfl, rfl, rfl, rfl, rfl, rfl, rfl, rfl, rfl, rfl, rfl, rfl, rfl, rfl, fun _ => rfl⟩
    rw [if_neg q2]
    by_cases q3 : key = glfw.KEY_DOWN
    · rw [if_pos q3]; exact ⟨rfl, rfl, rfl, rfl, rfl, rfl, rfl, rfl, rfl, rfl, rfl, rfl, rfl, rfl, fun _ => rfl⟩
    rw [if_neg q3]; exact ⟨rfl, rfl, rfl, rfl, rfl, rfl, rfl, rfl, rfl, rfl, rfl, rfl, rfl, rfl, fun _ => rfl⟩
  rw [if_neg q1]
  by_cases q4 : key = glfw.KEY_LEFT
  · rw [if_pos q4]; exact ⟨rfl, rfl, rfl, rfl, rfl, rfl, rfl, rfl, rfl, rfl, rfl, rfl, rfl, rfl, fun _ => rfl⟩
  rw [if_neg q4]
  by_cases q5 : key = glfw.KEY_RIGHT
  · rw [if_pos q5]; exact ⟨rfl, rfl, rfl, rfl, rfl, rfl, rfl, rfl, rfl, rfl, rfl, rfl, rfl, rfl, fun _ => rfl⟩
  rw [if_neg q5]
  by_cases q6 : key = glfw.KEY_UP
  · rw [if_pos q6]; exact ⟨rfl, rfl, rfl, rfl, rfl, rfl, rfl, rfl, rfl, rfl, rfl, rfl, rfl, rfl, fun _ => rfl⟩
  rw [if_neg q6]
  by_cases q7 : key = glfw.KEY_DOWN
  · rw [if_pos q7]; exact ⟨rfl, rfl, rfl, rfl, rfl, rfl, rfl, rfl, rfl, rfl, rfl, rfl, rfl, rfl, fun _ => rfl⟩
  rw [if_neg q7]; exact ⟨rfl, rfl, rfl, rfl, rfl, rfl, rfl, rfl, rfl, rfl, rfl, rfl, rfl, rfl, fun _ => rfl⟩

/-- `MjViewerBasic.key_callback` only ever writes `exit`. -/
theorem basic_key_callback_fields (s : ViewerState) (key action : ℤ) :
    (basic_key_callback s key action).gravity = s.gravity ∧
    (basic_key_callback s key action).run_speed = s.run_speed ∧
    (basic_key_callback s key action).record_video = s.record_video ∧
    (basic_key_callback s key action).target = s.target ∧
    (basic_key_callback s key action).old_target = s.old_target ∧
    (basic_key_callback s key action).target_moved = s.target_moved ∧
    (basic_key_callback s key action).xyz_lowerbound = s.xyz_lowerbound ∧
    (basic_key_callback s key action).xyz_upperbound = s.xyz_upperbound ∧
    (basic_key_callback s key action).rlim_lo = s.rlim_lo ∧
    (basic_key_callback s key action).rlim_hi = s.rlim_hi ∧
    (basic_key_callback s key action).scale = s.scale ∧
    (basic_key_callback s key action).joystick_scale = s.joystick_scale ∧
    (basic_key_callback s key action).elbow_force_xyz = s.elbow_force_xyz ∧
    (basic_key_callback s key action).elbow_force_rot = s.elbow_force_rot ∧
    (basic_key_callback s key action).move_elbow = s.move_elbow ∧
    (basic_key_callback s key action).planet = s.planet := by
  delta basic_key_callback
  by_cases hb : action = glfw.RELEASE ∧ key = glfw.KEY_ESCAPE
  · rw [if_pos hb]; exact ⟨rfl, rfl, rfl, rfl, rfl, rfl, rfl, rfl, rfl, rfl, rfl, rfl, rfl, rfl, rfl, rfl⟩
  rw [if_neg hb]; exact ⟨rfl, rfl, rfl, rfl, rfl, rfl, rfl, rfl, rfl, rfl, rfl, rfl, rfl, rfl, rfl, rfl⟩

/-- `targetStep` only writes `target`, `old_target` and `target_moved`. -/
theorem targetStep_fields (s : ViewerState) (d : Vec3) :
    (targetStep s d).gravity = s.gravity ∧
    (targetStep s d).run_speed = s.run_speed ∧
    (targetStep s d).record_video = s.record_video ∧
    (targetStep s d).xyz_lowerbound = s.xyz_lowerbound ∧
    (targetStep s d).xyz_upperbound = s.xyz_upperbound ∧
    (targetStep s d).rlim_lo = s.rlim_lo ∧
    (targetStep s d).rlim_hi = s.rlim_hi ∧
    (targetStep s d).scale = s.scale ∧
    (targetStep s d).joystick_scale = s.joystick_scale ∧
    (targetStep s d).planet = s.planet ∧
    (targetStep s d).move_elbow = s.move_elbow :=
  ⟨rfl, rfl, rfl, rfl, rfl, rfl, rfl, rfl, rfl, rfl, rfl⟩

/-- Fields the `arrow_keys` block never writes. -/
theorem arrowBlock_fields (s : ViewerState) (d : Vec3) (ak : Bool) :
    (arrowBlock s d ak).gravity = s.gravity ∧
    (arrowBlock s d ak).run_speed = s.run_speed ∧
    (arrowBlock s d ak).record_video = s.record_video ∧
    (arrowBlock s d ak).xyz_lowerbound = s.xyz_lowerbound ∧
    (arrowBlock s d ak).xyz_upperbound = s.xyz_upperbound ∧
    (arrowBlock s d ak).rlim_lo = s.rlim_lo ∧
    (arrowBlock s d ak).rlim_hi = s.rlim_hi ∧
    (arrowBlock s d ak).scale = s.scale ∧
    (arrowBlock s d ak).joystick_scale = s.joystick_scale ∧
    (arrowBlock s d ak).planet = s.planet ∧
    (arrowBlock s d ak).move_elbow = s.move_elbow := by
  delta arrowBlock
  by_cases a1 : ak = true
  · rw [if_pos a1]
    by_cases a2 : s.move_elbow = true
    · rw [if_pos a2]; exact ⟨rfl, rfl, rfl, rfl, rfl, rfl, rfl, rfl, rfl, rfl, rfl⟩
    rw [if_neg a2]; exact targetStep_fields s d
  rw [if_neg a1]; exact ⟨rfl, rfl, rfl, rfl, rfl, rfl, rfl, rfl, rfl, rfl, rfl⟩

/-- Preservation through the dispatching branch part of the callback. -/
theorem stepParts_fields (s : ViewerState) (altHeld : Bool) (key action : ℤ) :
    ((stepParts s altHeld key action).1).gravity = s.gravity ∧
    ((stepParts s altHeld key action).1).run_speed = s.run_speed ∧
    ((stepParts s altHeld key action).1).record_video = s.record_video ∧
    ((stepParts s altHeld key action).1).target = s.target ∧
    ((stepParts s altHeld key action).1).old_target = s.old_target ∧
    ((stepParts s altHeld key action).1).target_moved = s.target_moved ∧
    ((stepParts s altHeld key action).1).xyz_lowerbound = s.xyz_lowerbound ∧
    ((stepParts s altHeld key action).1).xyz_upperbound = s.xyz_upperbound ∧
    ((stepParts s altHeld key action).1).rlim_lo = s.rlim_lo ∧
    ((stepParts s altHeld key action).1).rlim_hi = s.rlim_hi ∧
    ((stepParts s altHeld key action).1).scale = s.scale ∧
    ((stepParts s altHeld key action).1).joystick_scale = s.joystick_scale ∧
    ((stepParts s altHeld key action).1).elbow_force_xyz = s.elbow_force_xyz ∧
    ((stepParts s altHeld key action).1).elbow_force_rot = s.elbow_force_rot ∧
    ((stepParts s altHeld key action).2.2 = true →
      ((stepParts s altHeld key action).1).move_elbow = s.move_elbow) := by
  delta stepParts
  by_cases ha : action ≠ glfw.RELEASE
  · rw [if_pos ha]; exact pressStep_fields s altHeld key
  rw [if_neg ha]; exact releaseStep_fields s altHeld key

/-- Fields `key_callback` never writes, for any event. -/
theorem key_callback_fields (s : ViewerState) (altHeld : Bool) (key action : ℤ) :
    (key_callback s altHeld key action).gravity = s.gravity ∧
    (key_callback s altHeld key action).run_speed = s.run_speed ∧
    (key_callback s altHeld key action).record_video = s.record_video ∧
    (key_callback s altHeld key action).xyz_lowerbound = s.xyz_lowerbound ∧
    (key_callback s altHeld key action).xyz_upperbound = s.xyz_upperbound ∧
    (key_callback s altHeld key action).rlim_lo = s.rlim_lo ∧
    (key_callback s altHeld key action).rlim_hi = s.rlim_hi ∧
    (key_callback s altHeld key action).scale = s.scale ∧
    (key_callback s altHeld key action).joystick_scale = s.joystick_scale := by
  obtain ⟨g1, r1, v1, _, _, _, lb1, ub1, rl1, rh1, sc1, js1, _, _, _⟩ :=
    stepParts_fields s altHeld key action
  obtain ⟨g2, r2, v2, _, _, _, lb2, ub2, rl2, rh2, sc2, js2, _, _, _, _⟩ :=
    basic_key_callback_fields (stepParts s altHeld key action).1 key action
  obtain ⟨g3, r3, v3, lb3, ub3, rl3, rh3, sc3, js3, _, _⟩ :=
    arrowBlock_fields
      (basic_key_callback (stepParts s altHeld key action).1 key action)
      (stepParts s altHeld key action).2.1 (stepParts s altHeld key action).2.2
  exact ⟨g3.trans (g2.trans g1), r3.trans (r2.trans r1), v3.trans (v2.trans v1),
         lb3.trans (lb2.trans lb1), ub3.trans (ub2.trans ub1),
         rl3.trans (rl2.trans rl1), rh3.trans (rh2.trans rh1),
         sc3.trans (sc2.trans sc1), js3.trans (js2.trans js1)⟩

set_option maxHeartbeats 1000000 in
/-- On an arrow event the displacement `(dx, dy, dz)` is the joystick
scale times a coordinate unit direction. -/
theorem stepParts_delta (s : ViewerState) (altHeld : Bool) (key action : ℤ) :
    (stepParts s altHeld key action).2.2 = true →
    ∃ u : Vec3,
      (u = ⟨1, 0, 0⟩ ∨ u = ⟨-1, 0, 0⟩ ∨ u = ⟨0, 1, 0⟩ ∨ u = ⟨0, -1, 0⟩ ∨
        u = ⟨0, 0, 1⟩ ∨ u = ⟨0, 0, -1⟩) ∧
      (stepParts s altHeld key action).2.1 = s.joystick_scale • u := by
  delta stepParts
  by_cases ha : action ≠ glfw.RELEASE
  · rw [if_pos ha]
    delta pressStep
    by_cases q1 : altHeld = true ∨ s.target_z_toggle = true
    · rw [if_pos q1]
      by_cases q2 : key = glfw.KEY_UP
      · rw [if_pos q2]; intro _; exact ⟨⟨0, 0, 1⟩, Or.inr (Or.inr (Or.inr (Or.inr (Or.inl rfl)))), by simp [Vec3.smul_def]⟩
      rw [if_neg q2]
      by_cases q3 : key = glfw.KEY_DOWN
      · rw [if_pos q3]; intro _; exact ⟨⟨0, 0, -1⟩, Or.inr (Or.inr (Or.inr (Or.inr (Or.inr rfl)))), by simp [Vec3.smul_def]⟩
      rw [if_neg q3]; intro hh; exact Bool.noConfusion hh
    rw [if_neg q1]
    by_cases q4 : key = glfw.KEY_LEFT
    · rw [if_pos q4]; intro _; exact ⟨⟨-1, 0, 0⟩, Or.inr (Or.inl rfl), by simp [Vec3.smul_def]⟩
    rw [if_neg q4]
    by_cases q5 : key = glfw.KEY_RIGHT
    · rw [if_pos q5]; intro _; exact ⟨⟨1, 0, 0⟩, Or.inl rfl, by simp [Vec3.smul_def]⟩
    rw [if_neg q5]
    by_cases q6 : key = glfw.KEY_UP
    · rw [if_pos q6]; intro _; exact ⟨⟨0, 1, 0⟩, Or.inr (Or.inr (Or.inl rfl)), by simp [Vec3.smul_def]⟩
    rw [if_neg q6]
    by_cases q7 : key = glfw.KEY_DOWN
    · rw [if_pos q7]; intro _; exact ⟨⟨0, -1, 0⟩, Or.inr (Or.inr (Or.inr (Or.inl rfl))), by simp [Vec3.smul_def]⟩
    rw [if_neg q7]; intro hh; exact Bool.noConfusion hh
  rw [if_neg ha]
  delta releaseStep
  by_cases h1 : key = glfw.KEY_H
  · rw [if_pos h1]; intro hh; exact Bool.noConfusion hh
  rw [if_neg h1]
  by_cases h2 : key = glfw.KEY_SPACE
  · rw [if_pos h2]; intro hh; exact Bool.noConfusion hh
  rw [if_neg h2]
  by_cases h3 : key = glfw.KEY_UP ∧ altHeld = true
  · rw [if_pos h3]; intro _; exact ⟨⟨0, 0, 1⟩, Or.inr (Or.inr (Or.inr (Or.inr (Or.inl rfl)))), by simp [Vec3.smul_def]⟩
  rw [if_neg h3]
  by_cases h4 : key = glfw.KEY_DOWN ∧ altHeld = true
  · rw [if_pos h4]; intro _; exact ⟨⟨0, 0, -1⟩, Or.inr (Or.inr (Or.inr (Or.inr (Or.inr rfl)))), by simp [Vec3.smul_def]⟩
  rw [if_neg h4]
  by_cases h5 : key = glfw.KEY_LEFT
  · rw [if_pos h5]; intro _; exact ⟨⟨-1, 0, 0⟩, Or.inr (Or.inl rfl), by simp [Vec3.smul_def]⟩
  rw [if_neg h5]
  by_cases h6 : key = glfw.KEY_RIGHT
  · rw [if_pos h6]; intro _; exact ⟨⟨1, 0, 0⟩, Or.inl rfl, by simp [Vec3.smul_def]⟩
  rw [if_neg h6]
  by_cases h7 : key = glfw.KEY_UP
  · rw [if_pos h7]; intro _; exact ⟨⟨0, 1, 0⟩, Or.inr (Or.inr (Or.inl rfl)), by simp [Vec3.smul_def]⟩
  rw [if_neg h7]
  by_cases h8 : key = glfw.KEY_DOWN
  · rw [if_pos h8]; intro _; exact ⟨⟨0, -1, 0⟩, Or.inr (Or.inr (Or.inr (Or.inl rfl))), by simp [Vec3.smul_def]⟩
  rw [if_neg h8]
  by_cases h9 : key = glfw.KEY_F1
  · rw [if_pos h9]; intro hh; exact Bool.noConfusion hh
  rw [if_neg h9]
  by_cases h10 : key = glfw.KEY_F2
  · rw [if_pos h10]; intro hh; exact Bool.noConfusion hh
  rw [if_neg h10]
  by_cases h11 : key = glfw.KEY_F3
  · rw [if_pos h11]; intro hh; exact Bool.noConfusion hh
  rw [if_neg h11]
  by_cases h12 : key = glfw.KEY_LEFT_SHIFT
  · rw [if_pos h12]; intro hh; exact Bool.noConfusion hh
  rw [if_neg h12]
  by_cases h13 : key = glfw.KEY_U
  · rw [if_pos h13]; intro hh; exact Bool.noConfusion hh
  rw [if_neg h13]
  by_cases h14 : key = glfw.KEY_Y
  · rw [if_pos h14]; intro hh; exact Bool.noConfusion hh
  rw [if_neg h14]
  by_cases h15 : key = glfw.KEY_1
  · rw [if_pos h15]; intro hh; exact Bool.noConfusion hh
  rw [if_neg h15]
  by_cases h16 : key = glfw.KEY_2
  · rw [if_pos h16]; intro hh; exact Bool.noConfusion hh
  rw [if_neg h16]
  by_cases h17 : key = glfw.KEY_3
  · rw [if_pos h17]; intro hh; exact Bool.noConfusion hh
  rw [if_neg h17]
  by_cases h18 : key = glfw.KEY_4
  · rw [if_pos h18]; intro hh; exact Bool.noConfusion hh
  rw [if_neg h18]
  by_cases h19 : key = glfw.KEY_5
  · rw [if_pos h19]; intro hh; exact Bool.noConfusion hh
  rw [if_neg h19]
  by_cases h20 : key = glfw.KEY_F5
  · rw [if_pos h20]; intro hh; exact Bool.noConfusion hh
  rw [if_neg h20]
  by_cases h21 : key = glfw.KEY_ENTER
  · rw [if_pos h21]; intro hh; exact Bool.noConfusion hh
  rw [if_neg h21]
  by_cases h22 : key = glfw.KEY_TAB
  · rw [if_pos h22]; intro hh; exact Bool.noConfusion hh
  rw [if_neg h22]
  intro hh; exact Bool.noConfusion hh

/-! ### The frame-pacing loop of `MjViewer.render` (lines 342-351) -/

/-- The `while self._loop_count > 0:` loop: each pass runs the inner
render once and decrements the count.  Returns the number of passes and
the final count. -/
def renderLoop (c : ℚ) : ℕ × ℚ :=
  if 0 < c then
    ((renderLoop (c - 1)).1 + 1, (renderLoop (c - 1)).2)
  else (0, c)
termination_by (⌈c⌉).toNat
decreasing_by
  all_goals
    simp_wf
    assumption

theorem renderLoop_nonpos (c : ℚ) (h : ¬0 < c) : renderLoop c = (0, c) := by
  unfold renderLoop
  rw [if_neg h]

theorem renderLoop_one : renderLoop 1 = (1, 0) := by
  unfold renderLoop
  rw [if_pos (by norm_num : (0 : ℚ) < 1),
      renderLoop_nonpos ((1 : ℚ) - 1) (by norm_num)]
  norm_num

/-- The not-paused path of `render`: accumulate
`timestep * nsubsteps / (time_per_render * run_speed)` into `_loop_count`,
override the count with 1 when `_render_every_frame` is set, then run the
inner loop while the count is positive.  Returns the number of inner-loop
passes and the final `_loop_count`. -/
def renderPacing (s : ViewerState) (timestep : ℚ) (nsubsteps : ℕ) :
    ℕ × ℚ :=
  renderLoop
    (if s.render_every_frame then 1
     else s.loop_count
       + timestep * (nsubsteps : ℚ) / (s.time_per_render * s.run_speed))

/-- Dispatch of `render` on `if self._paused:` (truthy only for
`some true`).  The paused branch repeats the same frame until an external
event clears `_paused` or sets `_advance_by_one_step`; it performs no
loop-count bookkeeping and is returned as `none` here. -/
def render_counts (s : ViewerState) (timestep : ℚ) (nsubsteps : ℕ) :
    Option (ℕ × ℚ) :=
  if s.paused = some true then none
  else some (renderPacing s timestep nsubsteps)

/-! ### The overlay builder (`_create_full_overlay`, lines 388-429) -/

/-- Python runtime errors the embedded code can raise. -/
inductive PyErr where
  | nameError (name : String)
deriving DecidableEq, Repr

/-- One `add_overlay(gridpos, text1, text2)` call.  Texts carry the
format strings of the source; the interpolated values are not modelled. -/
structure OverlayItem where
  gridpos : ℤ
  text1 : String
  text2 : String
deriving DecidableEq, Repr

/-- The CUSTOM KEYS section (lines 413-429), reached only when
`display_all_text` is false (otherwise the call has already raised). -/
def custom_overlay (s : ViewerState) : List OverlayItem :=
  [⟨const.GRID_TOPLEFT, "Toggle adaptation", "[LEFT SHIFT]"⟩,
   ⟨const.GRID_TOPLEFT, "Move target along X/Y", "RIGHT/LEFT/UP/DOWN"⟩,
   ⟨const.GRID_TOPLEFT, "Move target along Z", "[ALT+ UP/DOWN]"⟩,
   ⟨const.GRID_TOPLEFT, "Follow target", "[F1]"⟩,
   ⟨const.GRID_TOPLEFT, "Pick up object", "[F2]"⟩,
   ⟨const.GRID_TOPLEFT, "Dumbbell mass +1kg", "[u]"⟩,
   ⟨const.GRID_TOPLEFT, "Dumbbell mass -1kg", "[y]"⟩,
   ⟨const.GRID_TOPLEFT, "Mars Gravity", "[1]"⟩,
   ⟨const.GRID_TOPLEFT, "Earth Gravity", "[2]"⟩,
   ⟨const.GRID_TOPLEFT, "Moon Gravity", "[3]"⟩,
   ⟨const.GRID_TOPLEFT, "Jupiter Gravity", "[4]"⟩,
   ⟨const.GRID_TOPLEFT, "ISS Gravity", "[5]"⟩,
   ⟨const.GRID_TOPRIGHT, "Adaptation: %s", ""⟩,
   ⟨const.GRID_TOPRIGHT, s.reach_mode, ""⟩,
   ⟨const.GRID_TOPRIGHT, "Elbow force ", ""⟩,
   ⟨const.GRID_TOPRIGHT, s.custom_print, ""⟩]

/-- `_create_full_overlay`.  Under `display_all_text` the source first
adds the run-speed (or blank) line, the Stop/Start line and the
"[H]ide Menu" line, and then, at line 402, evaluates
`"%d%s" % (1 / self._time_per_render, extra)` — but no binding for
`extra` exists anywhere in the module, so the call raises
`NameError('extra')` before any further line runs.  The items added
before the raise are not observable by a caller (`render` aborts), so
the embedding returns only the error in that branch. -/
def create_full_overlay (s : ViewerState) :
    Except PyErr (List OverlayItem) :=
  if s.display_all_text then Except.error (PyErr.nameError "extra")
  else Except.ok (custom_overlay s)

/-- The tail of `render_inner_loop` (lines 327-332): with
`_record_video` set, the frame is read back and put on the video queue
(second component `true`); otherwise the running average
`_time_per_render` is updated from the elapsed wall-clock time. -/
def render_inner_tail (s : ViewerState) (elapsed : ℚ) :
    ViewerState × Bool :=
  if s.record_video then (s, true)
  else ({s with time_per_render :=
          9/10 * s.time_per_render + 1/10 * elapsed}, false)

/-- `render_inner_loop` (lines 318-332): build the overlay unless hidden
(possibly raising), render, then the video/timing tail. -/
def render_inner_loop (s : ViewerState) (elapsed : ℚ) :
    Except PyErr (ViewerState × Bool) :=
  if s.hide_overlay then Except.ok (render_inner_tail s elapsed)
  else
    match create_full_overlay s with
    | Except.error e => Except.error e
    | Except.ok _ => Except.ok (render_inner_tail s elapsed)

/-! ### Gamepad dpad conversion (`xbox_conversion`, lines 708-723) -/

/-- The `elif button == 'dpad':` branch of `xbox_conversion`: vertical
+1 or -1 maps to the mass hotkeys, else horizontal -1 or +1 maps to the
previous or next planet hotkey with the id clamped to [0, 4]; else
`(key, action) = (None, None)`.  The planet/key table lookups return
`Option`; `none` models a python `KeyError`. -/
def xbox_dpad_conversion (s : ViewerState) (val : ℤ × ℤ) :
    Option (ℤ × ℤ) :=
  if val.2 = 1 then some (glfw.KEY_U, glfw.RELEASE)
  else if val.2 = -1 then some (glfw.KEY_Y, glfw.RELEASE)
  else if val.1 = -1 then
    (planet_ids s.planet).bind (fun i =>
      (planet_names (max 0 (i - 1))).bind (fun nm =>
        (keys nm).map (fun k => (k, glfw.RELEASE))))
  else if val.1 = 1 then
    (planet_ids s.planet).bind (fun i =>
      (planet_names (min 4 (i + 1))).bind (fun nm =>
        (keys nm).map (fun k => (k, glfw.RELEASE))))
  else none

/-! ### Mouse callbacks and the GUI lock (`MjViewerBasic`) -/

/-- Observable actions of the callback surface, in program order.
`acquireLock`/`releaseLock` delimit `with self._gui_lock:` blocks. -/
inductive UiEvent where
  | acquireLock
  | releaseLock
  | moveCamera (mact : ℤ) (dx dy : ℚ)
  | renderWindow
  | pollEvents
deriving DecidableEq, Repr

/-- `_cursor_pos_callback` (lines 67-91): returns the updated state and
the trace of actions.  `shiftHeld` embeds the two `glfw.get_key` shift
queries; `height` is the framebuffer height. -/
def cursor_pos_callback (s : ViewerState) (xpos ypos : ℚ)
    (shiftHeld : Bool) (height : ℤ) : ViewerState × List UiEvent :=
  if ¬(s.button_left_pressed = true ∨ s.button_right_pressed = true) then
    (s, [])
  else
    ({s with last_mouse_x := pyInt (s.win_scale * xpos),
             last_mouse_y := pyInt (s.win_scale * ypos)},
     [UiEvent.acquireLock,
      UiEvent.moveCamera
        (if s.button_right_pressed then
          (if shiftHeld then const.MOUSE_MOVE_H else const.MOUSE_MOVE_V)
         else if s.button_left_pressed then
          (if shiftHeld then const.MOUSE_ROTATE_H else const.MOUSE_ROTATE_V)
         else const.MOUSE_ZOOM)
        (((pyInt (s.win_scale * xpos) - s.last_mouse_x : ℤ) : ℚ)
          / (height : ℚ))
        (((pyInt (s.win_scale * ypos) - s.last_mouse_y : ℤ) : ℚ)
          / (height : ℚ)),
      UiEvent.releaseLock])

/-- `_scroll_callback` (lines 103-105). -/
def scroll_callback (s : ViewerState) (x_offset y_offset : ℚ) :
    ViewerState × List UiEvent :=
  (s, [UiEvent.acquireLock,
       UiEvent.moveCamera const.MOUSE_ZOOM 0 ((-5)/100 * y_offset),
       UiEvent.releaseLock])

/-- `MjViewerBasic.render` (lines 47-60) for an existing window:
record `exit` when the window should close, render under the lock, then
poll events. -/
def basic_render (s : ViewerState) (window_should_close : Bool) :
    ViewerState × List UiEvent :=
  ((if window_should_close then {s with exit := true} else s),
   [UiEvent.acquireLock, UiEvent.renderWindow, UiEvent.releaseLock,
    UiEvent.pollEvents])

/-- Number of locks held after a trace prefix. -/
def lockDepth : List UiEvent → ℤ
  | [] => 0
  | UiEvent.acquireLock :: es => lockDepth es + 1
  | UiEvent.releaseLock :: es => lockDepth es - 1
  | _ :: es => lockDepth es

/-- The events the specification requires to happen under `_gui_lock`:
camera mutations and the window render. -/
def guardedEvent : UiEvent → Bool
  | UiEvent.moveCamera _ _ _ => true
  | UiEvent.renderWindow => true
  | _ => false

/-- The lock is held at position `i` of the trace: strictly more
acquisitions than releases precede it. -/
abbrev heldAt (tr : List UiEvent) (i : ℕ) : Prop :=
  0 < lockDepth (List.take i tr)

theorem targetStep_target (s : ViewerState) (d : Vec3) :
    (targetStep s d).target
      = targetUpdate s.target s.scale s.rlim_lo s.rlim_hi
          s.xyz_lowerbound s.xyz_upperbound d := rfl

/-- On an arrow event, the callback updates exactly one of `elbow_force`
and `target`, selected by `move_elbow`. -/
theorem key_callback_arrow_cases (s : ViewerState) (altHeld : Bool)
    (key action : ℤ) (h : arrow_of s altHeld key action = true) :
    (s.move_elbow = true →
      (key_callback s altHeld key action).elbow_force_xyz
        = s.elbow_force_xyz + (10 : ℚ) • delta_of s altHeld key action ∧
      (key_callback s altHeld key action).elbow_force_rot
        = s.elbow_force_rot ∧
      (key_callback s altHeld key action).target = s.target ∧
      (key_callback s altHeld key action).target_moved = s.target_moved) ∧
    (s.move_elbow = false →
      (key_callback s altHeld key action).elbow_force_xyz
        = s.elbow_force_xyz ∧
      (key_callback s altHeld key action).elbow_force_rot
        = s.elbow_force_rot ∧
      (key_callback s altHeld key action).target
        = targetUpdate s.target s.scale s.rlim_lo s.rlim_hi
            s.xyz_lowerbound s.xyz_upperbound
            (delta_of s altHeld key action) ∧
      (key_callback s altHeld key action).target_moved = true) := by
  obtain ⟨_, _, _, t1, _, m1, lb1, ub1, rl1, rh1, sc1, _, e1, er1, me1⟩ :=
    stepParts_fields s altHeld key action
  obtain ⟨_, _, _, t2, _, m2, lb2, ub2, rl2, rh2, sc2, _, e2, er2, me2, _⟩ :=
    basic_key_callback_fields (stepParts s altHeld key action).1 key action
  have h' : (stepParts s altHeld key action).2.2 = true := h
  have hme :
      (basic_key_callback (stepParts s altHeld key action).1 key
          action).move_elbow = s.move_elbow := me2.trans (me1 h')
  constructor
  · intro hm
    delta key_callback arrowBlock
    rw [if_pos h', if_pos (hme.trans hm)]
    exact ⟨congrArg
            (fun v => v + (10 : ℚ) • (stepParts s altHeld key action).2.1)
            (e2.trans e1),
           er2.trans er1, t2.trans t1, m2.trans m1⟩
  · intro hm
    have hc :
        ¬((basic_key_callback (stepParts s altHeld key action).1 key
            action).move_elbow = true) := by
      rw [hme, hm]; exact Bool.false_ne_true
    delta key_callback arrowBlock
    rw [if_pos h', if_neg hc]
    refine ⟨e2.trans e1, er2.trans er1, ?_, rfl⟩
    rw [targetStep_target, t2.trans t1, sc2.trans sc1, rl2.trans rl1,
        rh2.trans rh1, lb2.trans lb1, ub2.trans ub1]
    rfl

/-- Every event either leaves `target` and `target_moved` unchanged, or
sets `target` to a clip into the state's box and `target_moved` to true. -/
theorem key_callback_target_cases (s : ViewerState) (altHeld : Bool)
    (key action : ℤ) :
    ((key_callback s altHeld key action).target = s.target ∧
     (key_callback s altHeld key action).target_moved = s.target_moved) ∨
    (∃ t : Vec3,
      (key_callback s altHeld key action).target
        = Vec3.clip t s.xyz_lowerbound s.xyz_upperbound ∧
      (key_callback s altHeld key action).target_moved = true) := by
  obtain ⟨_, _, _, t1, _, m1, lb1, ub1, rl1, rh1, sc1, _, e1, er1, me1⟩ :=
    stepParts_fields s altHeld key action
  obtain ⟨_, _, _, t2, _, m2, lb2, ub2, rl2, rh2, sc2, _, e2, er2, me2, _⟩ :=
    basic_key_callback_fields (stepParts s altHeld key action).1 key action
  delta key_callback arrowBlock
  by_cases hak : (stepParts s altHeld key action).2.2 = true
  · rw [if_pos hak]
    by_cases hme :
        (basic_key_callback (stepParts s altHeld key action).1 key
          action).move_elbow = true
    · rw [if_pos hme]
      exact Or.inl ⟨t2.trans t1, m2.trans m1⟩
    · rw [if_neg hme]
      refine Or.inr ⟨targetPreClip
          ((basic_key_callback (stepParts s altHeld key action).1 key
            action)).target
          ((basic_key_callback (stepParts s altHeld key action).1 key
            action)).scale
          ((basic_key_callback (stepParts s altHeld key action).1 key
            action)).rlim_lo
          ((basic_key_callback (stepParts s altHeld key action).1 key
            action)).rlim_hi
          (stepParts s altHeld key action).2.1, ?_, rfl⟩
      rw [targetStep_target, lb2.trans lb1, ub2.trans ub1]
      rfl
  · rw [if_neg hak]
    exact Or.inl ⟨t2.trans t1, m2.trans m1⟩

/-! ### Reachability through the key callback -/

/-- States reachable from a freshly constructed viewer through any
sequence of `key_callback` events. -/
inductive Reachable : ViewerState → Prop where
  | init (display_all_text : Bool) (win_scale : ℚ) :
      Reachable (initViewer display_all_text win_scale)
  | step {s : ViewerState} (hs : Reachable s) (altHeld : Bool)
      (key action : ℤ) : Reachable (key_callback s altHeld key action)

theorem lb0_le_ub0 : Vec3.le lb0 ub0 := by
  refine ⟨?_, ?_, ?_⟩ <;> norm_num [lb0, ub0]

/-- Reachable states keep the box bounds from `__init__`, and whenever at
least one target move has happened (`target_moved`), the target lies in
the box. -/
theorem reachable_invariant {s : ViewerState} (h : Reachable s) :
    s.xyz_lowerbound = lb0 ∧ s.xyz_upperbound = ub0 ∧
    (s.target_moved = true →
      Vec3.le lb0 s.target ∧ Vec3.le s.target ub0) := by
  induction h with
  | init b w => exact ⟨rfl, rfl, fun hm => Bool.noConfusion hm⟩
  | step hs altHeld key action ih =>
    obtain ⟨hlb, hub, hinv⟩ := ih
    obtain ⟨_, _, _, klb, kub, _, _, _, _⟩ :=
      key_callback_fields _ altHeld key action
    refine ⟨klb.trans hlb, kub.trans hub, ?_⟩
    intro hm
    rcases key_callback_target_cases _ altHeld key action with
      ⟨ht, hmv⟩ | ⟨t, ht, _⟩
    · rw [ht]; exact hinv (hmv.symm.trans hm)
    · rw [ht, hlb, hub]
      exact Vec3.le_clip t lb0_le_ub0

/-! ### Claims -/

/-- C1, counterexample: from the initial state (planet `earth`, gravity
`[0, 0, -9.81]`), releasing key 1 sets `planet` to `mars` but leaves
`gravity` at earth's vector, not the `[0, 0, -3.71]` of the claim. -/
theorem C1_counterexample :
    (key_callback (initViewer false 1) false glfw.KEY_1 glfw.RELEASE).planet
      = "mars" ∧
    gravities "mars" = some ⟨0, 0, (-371)/100⟩ ∧
    (key_callback (initViewer false 1) false glfw.KEY_1 glfw.RELEASE).gravity
      ≠ ⟨0, 0, (-371)/100⟩ := by
  refine ⟨rfl, rfl, fun h => ?_⟩
  have hz : ((-981) / 100 : ℚ) = (-371) / 100 := congrArg Vec3.z h
  norm_num at hz

/-- C1 (amended): releasing a planet hotkey (glfw keys 1-5) sets
`self.planet` to the selected planet's name, but `self.gravity` is left
unchanged — `key_callback` never writes it, so it keeps whatever value
construction gave it (earth's). -/
theorem C1_planet_hotkeys (s : ViewerState) (altHeld : Bool) :
    ((key_callback s altHeld glfw.KEY_1 glfw.RELEASE).planet = "mars" ∧
     (key_callback s altHeld glfw.KEY_1 glfw.RELEASE).gravity = s.gravity) ∧
    ((key_callback s altHeld glfw.KEY_2 glfw.RELEASE).planet = "earth" ∧
     (key_callback s altHeld glfw.KEY_2 glfw.RELEASE).gravity = s.gravity) ∧
    ((key_callback s altHeld glfw.KEY_3 glfw.RELEASE).planet = "moon" ∧
     (key_callback s altHeld glfw.KEY_3 glfw.RELEASE).gravity = s.gravity) ∧
    ((key_callback s altHeld glfw.KEY_4 glfw.RELEASE).planet = "jupiter" ∧
     (key_callback s altHeld glfw.KEY_4 glfw.RELEASE).gravity = s.gravity) ∧
    ((key_callback s altHeld glfw.KEY_5 glfw.RELEASE).planet = "ISS" ∧
     (key_callback s altHeld glfw.KEY_5 glfw.RELEASE).gravity = s.gravity) :=
  ⟨⟨rfl, rfl⟩, ⟨rfl, rfl⟩, ⟨rfl, rfl⟩, ⟨rfl, rfl⟩, ⟨rfl, rfl⟩⟩

/-- C2: no key event ever changes `self._run_speed` — contradicting the
run-speed overlay line advertising `[S]lower, [F]aster` (lines 393-394);
`key_callback` has no handler for S or F. -/
theorem C2_run_speed_never_mutated (s : ViewerState) (altHeld : Bool)
    (key action : ℤ) :
    (key_callback s altHeld key action).run_speed = s.run_speed :=
  (key_callback_fields s altHeld key action).2.1

/-- C3, counterexample: there is no input event that changes
`self._record_video` through the key callback (gamepad input is routed
through `key_callback` as well, via `xbox_callback`). -/
theorem C3_counterexample :
    ¬∃ (s : ViewerState) (altHeld : Bool) (key action : ℤ),
        (key_callback s altHeld key action).record_video
          ≠ s.record_video := by
  rintro ⟨s, altHeld, key, action, h⟩
  exact h (key_callback_fields s altHeld key action).2.2.1

/-- C3 (amended): `render`'s inner loop does consult `_record_video` to
decide whether to enqueue a video frame, but no keyboard or gamepad
hotkey toggles the flag: `key_callback` leaves it unchanged on every
event. -/
theorem C3_record_video_never_toggled (s : ViewerState) (altHeld : Bool)
    (key action : ℤ) (elapsed : ℚ) :
    (key_callback s altHeld key action).record_video = s.record_video ∧
    ((render_inner_tail s elapsed).2 = true ↔ s.record_video = true) := by
  refine ⟨(key_callback_fields s altHeld key action).2.2.1, ?_⟩
  cases hv : s.record_video <;> simp [render_inner_tail, hv]

/-- C4: cursor events with the right button pressed pan the camera
(`MOUSE_MOVE_H` under shift, else `MOUSE_MOVE_V`); with only the left
button pressed they rotate it (`MOUSE_ROTATE_H`/`MOUSE_ROTATE_V`), with
displacement `(dx/height, dy/height)` from the scaled cursor delta; and
scroll events zoom with offsets `(0, -0.05 * y_offset)`. -/
theorem C4_mouse_camera_controls (s : ViewerState) (xpos ypos : ℚ)
    (shiftHeld : Bool) (height : ℤ) (x_offset y_offset : ℚ) :
    (s.button_right_pressed = true →
      (cursor_pos_callback s xpos ypos shiftHeld height).2
        = [UiEvent.acquireLock,
           UiEvent.moveCamera
             (if shiftHeld then const.MOUSE_MOVE_H else const.MOUSE_MOVE_V)
             (((pyInt (s.win_scale * xpos) - s.last_mouse_x : ℤ) : ℚ)
               / (height : ℚ))
             (((pyInt (s.win_scale * ypos) - s.last_mouse_y : ℤ) : ℚ)
               / (height : ℚ)),
           UiEvent.releaseLock]) ∧
    (s.button_right_pressed = false → s.button_left_pressed = true →
      (cursor_pos_callback s xpos ypos shiftHeld height).2
        = [UiEvent.acquireLock,
           UiEvent.moveCamera
             (if shiftHeld then const.MOUSE_ROTATE_H
              else const.MOUSE_ROTATE_V)
             (((pyInt (s.win_scale * xpos) - s.last_mouse_x : ℤ) : ℚ)
               / (height : ℚ))
             (((pyInt (s.win_scale * ypos) - s.last_mouse_y : ℤ) : ℚ)
               / (height : ℚ)),
           UiEvent.releaseLock]) ∧
    (scroll_callback s x_offset y_offset).2
      = [UiEvent.acquireLock,
         UiEvent.moveCamera const.MOUSE_ZOOM 0 ((-5)/100 * y_offset),
         UiEvent.releaseLock] := by
  refine ⟨?_, ?_, rfl⟩
  · intro hr
    delta cursor_pos_callback
    rw [if_neg (not_not_intro (Or.inr hr)), if_pos hr]
  · intro hrf hl
    delta cursor_pos_callback
    rw [if_neg (not_not_intro (Or.inl hl)), hrf, if_pos hl]
    rfl

/-- Witness for C4 at concrete inputs: a right-button drag produces a
vertical-pan `move_camera` call, a left-button drag a vertical-rotate
one, both under the lock. -/
theorem C4_witness :
    (cursor_pos_callback
        {initViewer false 1 with button_right_pressed := true}
        0 0 false 100).2
      = [UiEvent.acquireLock, UiEvent.moveCamera const.MOUSE_MOVE_V 0 0,
         UiEvent.releaseLock] ∧
    (cursor_pos_callback
        {initViewer false 1 with button_left_pressed := true}
        0 0 false 100).2
      = [UiEvent.acquireLock, UiEvent.moveCamera const.MOUSE_ROTATE_V 0 0,
         UiEvent.releaseLock] := by
  constructor
  · have h := (C4_mouse_camera_controls
      {initViewer false 1 with button_right_pressed := true}
      0 0 false 100 0 0).1 rfl
    rw [h]
    norm_num [pyInt, initViewer]
  · have h := (C4_mouse_camera_controls
      {initViewer false 1 with button_left_pressed := true}
      0 0 false 100 0 0).2.1 rfl rfl
    rw [h]
    norm_num [pyInt, initViewer]

/-- C5: with `_paused` false and `_render_every_frame` set, the pacing
loop body runs exactly once — the accumulated `_loop_count` is
overwritten with 1 before the loop — and `_loop_count` is 0 afterwards. -/
theorem C5_render_every_frame_single_pass (s : ViewerState)
    (timestep : ℚ) (nsubsteps : ℕ) (hp : s.paused = some false)
    (hf : s.render_every_frame = true) :
    render_counts s timestep nsubsteps = some (1, 0) := by
  have h1 : ¬(s.paused = some true) := by rw [hp]; simp
  delta render_counts renderPacing
  rw [if_neg h1, if_pos hf, renderLoop_one]

/-- Witness for C5: a viewer with `_render_every_frame` on and a large
accumulated loop count still renders exactly one frame. -/
theorem C5_witness :
    render_counts
      {initViewer false 1 with render_every_frame := true, loop_count := 7}
      (1/100) 2 = some (1, 0) :=
  C5_render_every_frame_single_pass _ (1/100) 2 rfl rfl

/-- C6: on every arrow-key event, exactly one of the two targeted
parameters changes.  With `move_elbow` the first three elbow-force
components gain `10 * joystick_scale` times the unit direction (the
displacement `delta_of` is `joystick_scale` times a coordinate unit
vector, last conjunct) and `target` is untouched; without it, `target`
is updated by the scaled step subject to the radius and box limits and
`elbow_force` is untouched. -/
theorem C6_arrow_event_modes (s : ViewerState) (altHeld : Bool)
    (key action : ℤ) (h : arrow_of s altHeld key action = true) :
    (s.move_elbow = true →
      (key_callback s altHeld key action).elbow_force_xyz
        = s.elbow_force_xyz + (10 : ℚ) • delta_of s altHeld key action ∧
      (key_callback s altHeld key action).elbow_force_rot
        = s.elbow_force_rot ∧
      (key_callback s altHeld key action).target = s.target ∧
      (key_callback s altHeld key action).target_moved = s.target_moved) ∧
    (s.move_elbow = false →
      (key_callback s altHeld key action).elbow_force_xyz
        = s.elbow_force_xyz ∧
      (key_callback s altHeld key action).elbow_force_rot
        = s.elbow_force_rot ∧
      (key_callback s altHeld key action).target
        = targetUpdate s.target s.scale s.rlim_lo s.rlim_hi
            s.xyz_lowerbound s.xyz_upperbound
            (delta_of s altHeld key action) ∧
      (key_callback s altHeld key action).target_moved = true) ∧
    (∃ u : Vec3,
      (u = ⟨1, 0, 0⟩ ∨ u = ⟨-1, 0, 0⟩ ∨ u = ⟨0, 1, 0⟩ ∨ u = ⟨0, -1, 0⟩ ∨
        u = ⟨0, 0, 1⟩ ∨ u = ⟨0, 0, -1⟩) ∧
      delta_of s altHeld key action = s.joystick_scale • u) :=
  ⟨(key_callback_arrow_cases s altHeld key action h).1,
   (key_callback_arrow_cases s altHeld key action h).2,
   stepParts_delta s altHeld key action h⟩

/-- Witness for C6: a right-arrow release from the initial state (where
`move_elbow` is false) updates `target` through the limit pipeline and
leaves the elbow force alone. -/
theorem C6_witness :
    (key_callback (initViewer false 1) false glfw.KEY_RIGHT
        glfw.RELEASE).target
      = targetUpdate (initViewer false 1).target (initViewer false 1).scale
          (initViewer false 1).rlim_lo (initViewer false 1).rlim_hi
          (initViewer false 1).xyz_lowerbound
          (initViewer false 1).xyz_upperbound
          (delta_of (initViewer false 1) false glfw.KEY_RIGHT
            glfw.RELEASE) ∧
    (key_callback (initViewer false 1) false glfw.KEY_RIGHT
        glfw.RELEASE).elbow_force_xyz
      = (initViewer false 1).elbow_force_xyz :=
  ⟨(((C6_arrow_event_modes (initViewer false 1) false glfw.KEY_RIGHT
      glfw.RELEASE rfl).2.1 rfl)).2.2.1,
   (((C6_arrow_event_modes (initViewer false 1) false glfw.KEY_RIGHT
      glfw.RELEASE rfl).2.1 rfl)).1⟩

/-- C7, counterexample: the state reached from the initial viewer by a
single non-arrow event (releasing H) is reachable through `key_callback`
but its target, the zero vector, is below the box's z lower bound
0.001 — the claimed invariant fails on reachable states that precede the
first target move. -/
theorem C7_counterexample :
    Reachable (key_callback (initViewer false 1) false glfw.KEY_H
      glfw.RELEASE) ∧
    ¬(Vec3.le lb0 (key_callback (initViewer false 1) false glfw.KEY_H
        glfw.RELEASE).target ∧
      Vec3.le (key_callback (initViewer false 1) false glfw.KEY_H
        glfw.RELEASE).target ub0) := by
  refine ⟨Reachable.step (Reachable.init false 1) false glfw.KEY_H
    glfw.RELEASE, ?_⟩
  rintro ⟨⟨_, _, hz⟩, -⟩
  have hz1 : (1 : ℚ)/1000 ≤ 0 := hz
  norm_num at hz1

/-- C7 (amended): after every arrow-key event handled with `move_elbow`
false in a state carrying the `__init__` box bounds, the target lies in
the box (clip is the last operation); and in every reachable state in
which at least one such move has happened (`target_moved`), the target
lies in the box.  The invariant does not hold before the first move: the
initial target is the zero vector, below the z lower bound. -/
theorem C7_target_box_invariant :
    (∀ (s : ViewerState) (altHeld : Bool) (key action : ℤ),
      arrow_of s altHeld key action = true → s.move_elbow = false →
      s.xyz_lowerbound = lb0 → s.xyz_upperbound = ub0 →
      Vec3.le lb0 (key_callback s altHeld key action).target ∧
      Vec3.le (key_callback s altHeld key action).target ub0) ∧
    (∀ s : ViewerState, Reachable s → s.target_moved = true →
      Vec3.le lb0 s.target ∧ Vec3.le s.target ub0) := by
  constructor
  · intro s altHeld key action h hm hlb hub
    have ht := ((key_callback_arrow_cases s altHeld key action h).2
      hm).2.2.1
    rw [ht, hlb, hub]
    exact Vec3.le_clip _ lb0_le_ub0
  · intro s hs hm
    exact (reachable_invariant hs).2.2 hm

/-- Witness for C7: the right-arrow release from the initial state lands
the target in the box, both by the direct statement and through
reachability. -/
theorem C7_witness :
    (Vec3.le lb0 (key_callback (initViewer false 1) false glfw.KEY_RIGHT
        glfw.RELEASE).target ∧
     Vec3.le (key_callback (initViewer false 1) false glfw.KEY_RIGHT
        glfw.RELEASE).target ub0) ∧
    (Vec3.le lb0 (key_callback (initViewer false 1) false glfw.KEY_RIGHT
        glfw.RELEASE).target ∧
     Vec3.le (key_callback (initViewer false 1) false glfw.KEY_RIGHT
        glfw.RELEASE).target ub0) :=
  ⟨C7_target_box_invariant.1 (initViewer false 1) false glfw.KEY_RIGHT
      glfw.RELEASE rfl rfl rfl rfl,
   C7_target_box_invariant.2 _
      (Reachable.step (Reachable.init false 1) false glfw.KEY_RIGHT
        glfw.RELEASE) rfl⟩

/-- C8: with `display_all_text` set, `_create_full_overlay` raises
`NameError` on the undefined name `extra` (line 402), so a render with
the overlay shown (`_hide_overlay` false) cannot complete. -/
theorem C8_overlay_name_error (s : ViewerState) (elapsed : ℚ)
    (h : s.display_all_text = true) :
    create_full_overlay s = Except.error (PyErr.nameError "extra") ∧
    (s.hide_overlay = false →
      render_inner_loop s elapsed
        = Except.error (PyErr.nameError "extra")) := by
  have h1 : create_full_overlay s
      = Except.error (PyErr.nameError "extra") := by
    delta create_full_overlay
    rw [if_pos h]
  refine ⟨h1, fun hh => ?_⟩
  delta render_inner_loop
  rw [if_neg (by rw [hh]; exact Bool.false_ne_true), h1]

/-- Witness for C8: a viewer constructed with `display_all_text=True`
(overlay not hidden) errors in `_create_full_overlay` and in the render
inner loop. -/
theorem C8_witness :
    create_full_overlay (initViewer true 1)
      = Except.error (PyErr.nameError "extra") ∧
    render_inner_loop (initViewer true 1) 0
      = Except.error (PyErr.nameError "extra") :=
  ⟨(C8_overlay_name_error (initViewer true 1) 0 rfl).1,
   (C8_overlay_name_error (initViewer true 1) 0 rfl).2 rfl⟩

/-- C9, counterexample: a diagonal dpad value `(-1, 1)` has horizontal
value -1, yet the conversion returns the mass-up hotkey (the vertical
axis is checked first), not the previous-planet hotkey `KEY_1` the claim
predicts for the initial planet `earth`. -/
theorem C9_counterexample :
    (initViewer false 1).planet = "earth" ∧
    planet_ids "earth" = some 1 ∧
    xbox_dpad_conversion (initViewer false 1) (-1, 1)
      = some (glfw.KEY_U, glfw.RELEASE) ∧
    xbox_dpad_conversion (initViewer false 1) (-1, 1)
      ≠ some (glfw.KEY_1, glfw.RELEASE) := by
  refine ⟨rfl, rfl, rfl, ?_⟩
  decide

/-- C9 (amended): the dpad mapping checks the vertical axis first:
vertical +1 or -1 returns the mass_up or mass_down hotkey with RELEASE; when
the vertical value is neither, horizontal -1 returns the hotkey of the
planet with id `max 0 (id - 1)` and horizontal +1 that of the planet
with id `min 4 (id + 1)`, both with RELEASE — clamped, never wrapping. -/
theorem C9_dpad_mapping (s : ViewerState) (val : ℤ × ℤ) (i : ℤ)
    (hp : planet_ids s.planet = some i) :
    (val.2 = 1 →
      xbox_dpad_conversion s val = some (glfw.KEY_U, glfw.RELEASE)) ∧
    (val.2 = -1 →
      xbox_dpad_conversion s val = some (glfw.KEY_Y, glfw.RELEASE)) ∧
    (val.2 ≠ 1 → val.2 ≠ -1 → val.1 = -1 →
      xbox_dpad_conversion s val
        = (planet_names (max 0 (i - 1))).bind
            (fun nm => (keys nm).map (fun k => (k, glfw.RELEASE)))) ∧
    (val.2 ≠ 1 → val.2 ≠ -1 → val.1 ≠ -1 → val.1 = 1 →
      xbox_dpad_conversion s val
        = (planet_names (min 4 (i + 1))).bind
            (fun nm => (keys nm).map (fun k => (k, glfw.RELEASE)))) := by
  refine ⟨?_, ?_, ?_, ?_⟩
  · intro h
    delta xbox_dpad_conversion
    rw [h]
    rfl
  · intro h
    delta xbox_dpad_conversion
    rw [h]
    rfl
  · intro h1 h2 h3
    delta xbox_dpad_conversion
    rw [if_neg h1, if_neg h2, if_pos h3, hp]
    rfl
  · intro h1 h2 h3 h4
    delta xbox_dpad_conversion
    rw [if_neg h1, if_neg h2, if_neg h3, if_pos h4, hp]
    rfl

/-- Witness for C9: from the initial planet `earth` (id 1), dpad left
selects mars (id 0), dpad right selects moon (id 2), dpad up/down hit
the mass hotkeys. -/
theorem C9_witness :
    xbox_dpad_conversion (initViewer false 1) (-1, 0)
      = some (glfw.KEY_1, glfw.RELEASE) ∧
    xbox_dpad_conversion (initViewer false 1) (1, 0)
      = some (glfw.KEY_3, glfw.RELEASE) ∧
    xbox_dpad_conversion (initViewer false 1) (0, 1)
      = some (glfw.KEY_U, glfw.RELEASE) ∧
    xbox_dpad_conversion (initViewer false 1) (0, -1)
      = some (glfw.KEY_Y, glfw.RELEASE) := by
  refine ⟨?_, ?_, ?_, ?_⟩
  · exact ((C9_dpad_mapping (initViewer false 1) (-1, 0) 1 rfl).2.2.1
      (by decide) (by decide) rfl).trans rfl
  · exact ((C9_dpad_mapping (initViewer false 1) (1, 0) 1 rfl).2.2.2
      (by decide) (by decide) (by decide) rfl).trans rfl
  · exact (C9_dpad_mapping (initViewer false 1) (0, 1) 1 rfl).1 rfl
  · exact (C9_dpad_mapping (initViewer false 1) (0, -1) 1 rfl).2.1 rfl

/-- In a trace of the shape `acquire; e; release`, every guarded event
happens while the lock is held. -/
theorem guarded_mid_held (e : UiEvent) :
    ∀ (i : ℕ)
      (h : i < ([UiEvent.acquireLock, e, UiEvent.releaseLock] :
        List UiEvent).length),
      guardedEvent (([UiEvent.acquireLock, e, UiEvent.releaseLock] :
        List UiEvent).get ⟨i, h⟩) = true →
      heldAt [UiEvent.acquireLock, e, UiEvent.releaseLock] i := by
  intro i h hg
  have h3 : i < 3 := h
  interval_cases i
  · exact Bool.noConfusion hg
  · exact Int.zero_lt_one
  · exact Bool.noConfusion hg

/-- C10: in the traces of `_cursor_pos_callback`, `_scroll_callback` and
`MjViewerBasic.render`, every `move_camera` call and the window render
occur only between the acquisition and release of `_gui_lock`. -/
theorem C10_gui_lock_guards (s : ViewerState) (xpos ypos : ℚ)
    (shiftHeld : Bool) (height : ℤ) (x_offset y_offset : ℚ)
    (window_should_close : Bool) :
    (∀ (i : ℕ)
       (h : i < (cursor_pos_callback s xpos ypos shiftHeld height).2.length),
       guardedEvent ((cursor_pos_callback s xpos ypos shiftHeld
         height).2.get ⟨i, h⟩) = true →
       heldAt (cursor_pos_callback s xpos ypos shiftHeld height).2 i) ∧
    (∀ (i : ℕ) (h : i < (scroll_callback s x_offset y_offset).2.length),
       guardedEvent ((scroll_callback s x_offset y_offset).2.get
         ⟨i, h⟩) = true →
       heldAt (scroll_callback s x_offset y_offset).2 i) ∧
    (∀ (i : ℕ) (h : i < (basic_render s window_should_close).2.length),
       guardedEvent ((basic_render s window_should_close).2.get
         ⟨i, h⟩) = true →
       heldAt (basic_render s window_should_close).2 i) := by
  refine ⟨?_, ?_, ?_⟩
  · delta cursor_pos_callback
    by_cases hb :
        ¬(s.button_left_pressed = true ∨ s.button_right_pressed = true)
    · rw [if_pos hb]
      intro i h hg
      exact absurd h (by simp)
    · rw [if_neg hb]
      exact guarded_mid_held _
  · exact guarded_mid_held _
  · intro i h hg
    have h4 : i < 4 := h
    interval_cases i
    · exact Bool.noConfusion hg
    · exact Int.zero_lt_one
    · exact Bool.noConfusion hg
    · exact Bool.noConfusion hg

/-- Witness for C10: concrete positions of the `move_camera` zoom call
and of the window render, with the lock held there. -/
theorem C10_witness :
    heldAt (scroll_callback (initViewer false 1) 0 2).2 1 ∧
    heldAt (basic_render (initViewer false 1) false).2 1 :=
  ⟨(C10_gui_lock_guards (initViewer false 1) 0 0 false 100 0 2
      false).2.1 1 (by decide) rfl,
   (C10_gui_lock_guards (initViewer false 1) 0 0 false 100 0 2
      false).2.2 1 (by decide) rfl⟩

end MjViewer
